import Mathlib

/-
  Verification of the MCC 172 host-side driver (lib/mcc172.c).

  The definitions below are shallow embeddings of the C functions in
  lib/mcc172.c.  Machine integers are modelled as Nat / Int with explicit
  `% 2^w` at the points where the C code can overflow; `double` values are
  modelled as ℚ (the claims under study only use exact arithmetic and
  comparisons on them); fallible operations return Option.  External
  collaborators (the SPI bus, the monotonic clock, the producer thread's
  interleaving) are passed in as explicit oracle arguments, so every
  definition is executable.
-/

/-
  Result codes and public constants.  The numeric values come from the
  public daqhats header (daqhats.h / mcc172.h), which is not part of
  src/; only their distinctness matters for the claims below.
  Modelled from the spec: §7 error kinds, §6 options/status bitsets.
-/

def RESULT_SUCCESS : Int := 0
def RESULT_BAD_PARAMETER : Int := -1
def RESULT_BUSY : Int := -2
def RESULT_TIMEOUT : Int := -3
def RESULT_LOCK_TIMEOUT : Int := -4
def RESULT_INVALID_DEVICE : Int := -5
def RESULT_RESOURCE_UNAVAIL : Int := -6
def RESULT_UNDEFINED : Int := -10

def STATUS_HW_OVERRUN : Nat := 0x0001
def STATUS_BUFFER_OVERRUN : Nat := 0x0002
def STATUS_TRIGGERED : Nat := 0x0004
def STATUS_RUNNING : Nat := 0x0008

def OPTS_NOSCALEDATA : Nat := 0x0001
def OPTS_NOCALIBRATEDATA : Nat := 0x0002
def OPTS_EXTCLOCK : Nat := 0x0004
def OPTS_EXTTRIGGER : Nat := 0x0008
def OPTS_CONTINUOUS : Nat := 0x0010

def HAT_ID_MCC_172 : Nat := 0x0145

/- Constants from mcc172.c (lines 30-133). -/

def MAX_CODE : Int := 8388607
def MIN_CODE : Int := -8388608
def RANGE_MIN : ℚ := -5
def RANGE_MAX : ℚ := 5

/-- LSB_SIZE exactly as mcc172.c line 34 defines it:
`(RANGE_MAX - RANGE_MIN)/(MAX_CODE+1)` = 10 / 2^23. -/
def LSB_SIZE : ℚ := (RANGE_MAX - RANGE_MIN) / ((MAX_CODE : ℚ) + 1)

def VOLTAGE_MAX : ℚ := RANGE_MAX - LSB_SIZE

def NUM_CHANNELS : Nat := 2
def MAX_SAMPLE_RATE : Nat := 51200
def MAX_TX_DATA_SIZE : Nat := 256
def MSG_START : Nat := 0xDB
def MSG_TX_HEADER_SIZE : Nat := 4
def MSG_RX_HEADER_SIZE : Nat := 5
def MAX_SPI_TRANSFER : Nat := 4096
def SAMPLE_SIZE_BYTES : Nat := 3
def MAX_SAMPLES_READ : Nat := (MAX_SPI_TRANSFER - MSG_RX_HEADER_SIZE) / SAMPLE_SIZE_BYTES
def MAX_SCAN_BUFFER_SIZE_SAMPLES : Nat := 16 * 1024 * 1024
def TRIG_ACTIVE_LOW : Nat := 3

/- ***************************************************************** -/
/- Bit-arithmetic helpers used to relate the C bitwise operations to
   plain arithmetic. -/

theorem or_mod_two_eq (a b : Nat) : (a ||| b) % 2 = a % 2 ||| b % 2 := by
  have h0 : ∀ m : Nat, m % 2 = (m.testBit 0).toNat := by
    intro m
    rcases Nat.mod_two_eq_zero_or_one m with h | h <;>
      simp [Nat.testBit, Nat.shiftRight, h, Nat.one_and_eq_mod_two]
  rw [h0 (a ||| b), h0 a, h0 b, Nat.testBit_or]
  cases a.testBit 0 <;> cases b.testBit 0 <;> rfl

/-- A disjoint bitwise OR is ordinary addition: `x * 2^n ||| y = x * 2^n + y`
whenever `y < 2^n`. -/
theorem mul_pow_or_eq_add (n : Nat) :
    ∀ x y : Nat, y < 2 ^ n → x * 2 ^ n ||| y = x * 2 ^ n + y := by
  induction n with
  | zero =>
    intro x y hy
    have h1 : (2 : Nat) ^ 0 = 1 := rfl
    have h0 : y = 0 := by omega
    subst h0
    simp
  | succ n ih =>
    intro x y hy
    have hps : x * 2 ^ (n + 1) = x * 2 ^ n * 2 := by ring
    have hq : y / 2 < 2 ^ n := by
      have hp : (2 : Nat) ^ (n + 1) = 2 ^ n * 2 := Nat.pow_succ 2 n
      omega
    have hdiv : (x * 2 ^ (n + 1) ||| y) / 2 = x * 2 ^ n ||| y / 2 := by
      rw [Nat.or_div_two]
      congr 1
      rw [hps]
      exact Nat.mul_div_cancel _ (by norm_num)
    have hmod : (x * 2 ^ (n + 1) ||| y) % 2 = y % 2 := by
      rw [or_mod_two_eq]
      have hx2 : x * 2 ^ (n + 1) % 2 = 0 := by omega
      rw [hx2]
      rcases Nat.mod_two_eq_zero_or_one y with h | h <;> simp [h]
    have hrec := ih x (y / 2) hq
    omega

/-- Low/high byte recombination: for `n < 2^16`,
`n % 256 ||| (n / 256 % 256) <<< 8 = n`. -/
theorem lo_hi_recombine (n : Nat) (h : n < 2 ^ 16) :
    n % 256 ||| ((n >>> 8) % 256) <<< 8 = n := by
  rw [Nat.or_comm, Nat.shiftLeft_eq, Nat.shiftRight_eq_div_pow]
  have h2 : (2 : Nat) ^ 8 = 256 := by norm_num
  have h16 : (2 : Nat) ^ 16 = 65536 := by norm_num
  have h1 : n / 2 ^ 8 % 256 = n / 256 := by
    rw [h2]
    have : n / 256 < 256 := by omega
    exact Nat.mod_eq_of_lt this
  rw [h1]
  have hlt : n % 256 < 2 ^ 8 := by omega
  have := mul_pow_or_eq_add 8 (n / 256) (n % 256) hlt
  rw [this, h2]
  omega

/- ***************************************************************** -/
/- Framing codec (mcc172.c `_parse_buffer`, lines 243-322, and
   `_create_frame`, lines 327-346). -/

/-- The local state of `_parse_buffer`'s scanning loop
(mcc172.c lines 246-261). -/
structure ParseState where
  parse_state : Nat
  data_count : Nat
  data_index : Nat
  remaining : Nat
  frame_length : Nat
  frame_start : Nat
  found : Bool
deriving Repr, DecidableEq

def parseInit : ParseState :=
  { parse_state := 0, data_count := 0, data_index := 0, remaining := 0,
    frame_length := 0, frame_start := 0, found := false }

/-- One iteration of the `switch (parse_state)` in `_parse_buffer`
(mcc172.c lines 265-315).  `b` is `ptr[index]`.  All counters are
uint16 in C; no wrap can occur for byte-valued input with
length < 2^16, which the theorems below hypothesise. -/
def parseStep (b index : Nat) (st : ParseState) : ParseState :=
  match st.parse_state with
  | 0 =>
    if b = MSG_START then
      { st with frame_start := index, data_count := 0, data_index := 0,
                parse_state := 1 }
    else st
  | 1 => { st with parse_state := 2 }
  | 2 => { st with parse_state := 3 }
  | 3 => { st with data_count := b, parse_state := 4 }
  | 4 =>
    let dc := st.data_count ||| b <<< 8
    if dc = 0 then
      { st with data_count := dc, remaining := 0, found := true,
                frame_length := MSG_RX_HEADER_SIZE, parse_state := 6 }
    else
      { st with data_count := dc, remaining := dc, parse_state := 5 }
  | 5 =>
    let st := { st with remaining := st.remaining - 1,
                        data_index := st.data_index + 1 }
    if st.data_index ≥ st.data_count then
      { st with parse_state := 6, found := true,
                frame_length := st.data_count + MSG_RX_HEADER_SIZE }
    else st
  | 6 => st
  | _ => { st with parse_state := 0 }

/-- The `for` loop of `_parse_buffer` (line 263):
`for (index = 0; (index < length) && !found_frame; index++)`.
Fuel counts the remaining loop iterations (`length - index`). -/
def parseAux (buffer : List Nat) : Nat → Nat → ParseState → ParseState
  | 0, _, st => st
  | fuel + 1, index, st =>
    if st.found then st
    else parseAux buffer fuel (index + 1) (parseStep (buffer.getD index 0) index st)

/-- `_parse_buffer` over a byte list; the C `length` parameter is the
list length. -/
def parse_buffer (buffer : List Nat) : ParseState :=
  parseAux buffer buffer.length 0 parseInit

/-- `_create_frame` (mcc172.c lines 327-346): TX frame
`[0xDB, command, count_lo, count_hi] ++ payload`; rejects payloads over
256 bytes (the C function returns length 0, modelled as `none`). -/
def create_frame (command : Nat) (data : List Nat) : Option (List Nat) :=
  if data.length > MAX_TX_DATA_SIZE then none
  else some ([MSG_START, command, data.length % 256, (data.length >>> 8) % 256]
              ++ data)

/-- The inbound (RX) frame layout the scanner consumes, per the
MSG_RX_INDEX_* constants of mcc172.c lines 97-104:
`[0xDB, command, status, count_lo, count_hi] ++ payload`. -/
def rx_frame (command status : Nat) (data : List Nat) : List Nat :=
  [MSG_START, command, status, data.length % 256, (data.length >>> 8) % 256]
    ++ data

/- ***************************************************************** -/
/- SPI transaction reply handling (`_spi_transfer`, mcc172.c lines
   560-594): once a frame has been located at `frame_start` in
   `rx_buffer`, compare the reply command byte with the transmitted one
   and map the firmware status byte to a result code, copying
   `rx_data_count` payload bytes out on success. -/

def spi_reply_result (tx_command : Nat) (rx_buffer : List Nat)
    (frame_start : Nat) (rx_data_count : Nat) : Int × Option (List Nat) :=
  if rx_buffer.getD (frame_start + 1) 0 = tx_command then
    let status := rx_buffer.getD (frame_start + 2) 0
    if status = 0x00 then
      (RESULT_SUCCESS,
        if rx_data_count > 0 then
          some ((rx_buffer.drop (frame_start + 5)).take rx_data_count)
        else none)
    else if status = 0x02 then (RESULT_BAD_PARAMETER, none)
    else if status = 0x05 then (RESULT_TIMEOUT, none)
    else if status = 0x03 then (RESULT_BUSY, none)
    else (RESULT_UNDEFINED, none)
  else (RESULT_BAD_PARAMETER, none)

/- ***************************************************************** -/
/- The ID handshake of `mcc172_open` (mcc172.c lines 1193-1223).
   `outcome n` is the oracle for attempt `n`: the `_spi_transfer`
   result for CMD_ID together with the two u16 words it returns
   (product id, firmware version).  The returned pair is the result of
   `mcc172_open` and the firmware version stored, if any. -/

def open_id_aux (outcome : Nat → Int × Nat × Nat) :
    Nat → Nat → Int × Option Nat
  | _, 0 => (RESULT_SUCCESS, none)
  | attempts, fuel + 1 =>
    let r := outcome attempts
    if r.1 = RESULT_SUCCESS then
      if r.2.1 = HAT_ID_MCC_172 then (RESULT_SUCCESS, some r.2.2)
      else (RESULT_INVALID_DEVICE, none)
    else if attempts + 1 < 2 then open_id_aux outcome (attempts + 1) fuel
    else (RESULT_SUCCESS, none)

/-- The do/while of lines 1195-1220 runs at most 2 attempts
(`attempts < 2`); on falling out of the loop the code reaches line
1223 and returns RESULT_SUCCESS. -/
def mcc172_open_id_phase (outcome : Nat → Int × Nat × Nat) : Int × Option Nat :=
  open_id_aux outcome 0 2

/- ***************************************************************** -/
/- Device and scan-session state (structs `mcc172Device` and
   `mcc172ScanThreadInfo`, mcc172.c lines 137-185).  Pointers to
   heap/thread resources are dropped; `scan_info = some _` models a
   non-null `scan_info` pointer. -/

structure ScanInfo where
  buffer_size : Nat
  write_index : Nat
  read_index : Nat
  samples_transferred : Nat
  buffer_depth : Nat
  read_threshold : Nat
  options : Nat
  hw_overrun : Bool
  buffer_overrun : Bool
  thread_running : Bool
  stop_thread : Bool
  triggered : Bool
  scan_running : Bool
  channel_count : Nat
  channel_index : Nat
  channels : List Nat
  slopes : List ℚ
  offsets : List ℚ
deriving Repr, DecidableEq

structure Mcc172Device where
  handle_count : Nat
  fw_version : Nat
  trigger_source : Nat
  trigger_mode : Nat
  slopes : List ℚ
  offsets : List ℚ
  scan_info : Option ScanInfo
deriving Repr, DecidableEq

/-- SPI command/response oracle: command byte and tx payload in, result
code and rx payload out.  Stands for `_spi_transfer`'s interaction with
the device (the full host-side reply decoding is `spi_reply_result`). -/
def SpiOracle : Type := Nat → List Nat → Int × List Nat

def CMD_AINSCANSTART : Nat := 0x11
def CMD_AINSCANSTATUS : Nat := 0x12
def CMD_AINSCANDATA : Nat := 0x13
def CMD_AINSCANSTOP : Nat := 0x14
def CMD_AINCLOCKCONFIG_R : Nat := 0x15
def CMD_AINCLOCKCONFIG_W : Nat := 0x16
def CMD_TRIGGERCONFIG_W : Nat := 0x18
def CMD_ID : Nat := 0x41
def CMD_IEPECONFIG_R : Nat := 0x43
def CMD_IEPECONFIG_W : Nat := 0x44

/-- `mcc172_calibration_coefficient_write` (mcc172.c lines 1384-1402).
Purely host-side: validates, rejects with Busy while a scan session
exists, otherwise updates the cached factory coefficients. -/
def mcc172_calibration_coefficient_write (dev : Mcc172Device)
    (channel : Nat) (slope offset : ℚ) : Int × Mcc172Device :=
  if channel ≥ NUM_CHANNELS then (RESULT_BAD_PARAMETER, dev)
  else if dev.scan_info.isSome then (RESULT_BUSY, dev)
  else
    (RESULT_SUCCESS,
      { dev with slopes := dev.slopes.set channel slope,
                 offsets := dev.offsets.set channel offset })

/-- `mcc172_trigger_config` (mcc172.c lines 1548-1573).  The returned
list records which SPI commands were issued. -/
def mcc172_trigger_config (spi : SpiOracle) (dev : Mcc172Device)
    (source mode : Nat) : Int × Mcc172Device × List Nat :=
  if source > 2 ∨ mode > TRIG_ACTIVE_LOW then (RESULT_BAD_PARAMETER, dev, [])
  else if dev.scan_info.isSome then (RESULT_BUSY, dev, [])
  else
    let buffer := (mode <<< 2 ||| source) % 256
    let dev := { dev with trigger_source := source, trigger_mode := mode }
    let r := spi CMD_TRIGGERCONFIG_W [buffer]
    (r.1, dev, [CMD_TRIGGERCONFIG_W])

/-- `mcc172_IEPE_config_write` (mcc172.c lines 1407-1444). -/
def mcc172_IEPE_config_write (spi : SpiOracle) (dev : Mcc172Device)
    (channel config : Nat) : Int × Mcc172Device × List Nat :=
  if channel ≥ NUM_CHANNELS ∨ config > 1 then (RESULT_BAD_PARAMETER, dev, [])
  else if dev.scan_info.isSome then (RESULT_BUSY, dev, [])
  else
    let r := spi CMD_IEPECONFIG_R []
    if r.1 ≠ RESULT_SUCCESS then (r.1, dev, [CMD_IEPECONFIG_R])
    else
      let buffer := r.2.getD 0 0
      let buffer :=
        if config = 0 then buffer &&& (0xFF ^^^ 1 <<< channel)
        else (buffer ||| 1 <<< channel) % 256
      let r2 := spi CMD_IEPECONFIG_W [buffer]
      (r2.1, dev, [CMD_IEPECONFIG_R, CMD_IEPECONFIG_W])

/-- `mcc172_a_in_clock_config_write` (mcc172.c lines 1473-1511).
`double` arithmetic is modelled exactly over ℚ. -/
def mcc172_a_in_clock_config_write (spi : SpiOracle) (dev : Mcc172Device)
    (clock_source : Nat) (sample_rate_per_channel : ℚ) :
    Int × Mcc172Device × List Nat :=
  if clock_source > 1 then (RESULT_BAD_PARAMETER, dev, [])
  else if dev.scan_info.isSome then (RESULT_BUSY, dev, [])
  else
    let divisor : ℚ := (MAX_SAMPLE_RATE : ℚ) / sample_rate_per_channel + 1/2
    let divisor : ℚ := if divisor < 1 then 1
      else if divisor > 256 then 256 else divisor
    let b : Nat := (Rat.floor (divisor - 1)).toNat
    let r := spi CMD_AINCLOCKCONFIG_W [clock_source, b]
    (r.1, dev, [CMD_AINCLOCKCONFIG_W])

/- ***************************************************************** -/
/- `mcc172_a_in_scan_start` (mcc172.c lines 1580-1801). -/

/-- The clock-sync wait loop (lines 1641-1656): each oracle entry is a
`mcc172_a_in_clock_config_read` outcome `(result, buffer0, buffer1)`.
The loop has no timeout; an exhausted oracle (`none`) models waiting
forever.  On sync it yields the decoded sample rate
`MAX_SAMPLE_RATE / (buffer1 + 1)` (lines 1538-1540). -/
def scan_start_clock_sync : List (Int × Nat × Nat) → Option (Int ⊕ ℚ)
  | [] => none
  | r :: rest =>
    if r.1 ≠ RESULT_SUCCESS then some (Sum.inl r.1)
    else if (r.2.1 >>> 7) &&& 1 = 0 then scan_start_clock_sync rest
    else some (Sum.inr ((MAX_SAMPLE_RATE : ℚ) / ((r.2.2 : ℚ) + 1)))

/-- The ring-buffer sizing of lines 1658-1695.  All assignments are to
the u32 `info->buffer_size`; the only point where 2^32 can be exceeded
(for `samples_per_channel < 2^32`) is the final `*= num_channels`. -/
def scan_start_buffer_size (continuous : Bool) (rate : ℚ)
    (samples_per_channel num_channels : Nat) : Nat :=
  let base :=
    if continuous then
      let b := if rate ≤ 1024 then 1000
        else if rate ≤ 10240 then 10000 else 100000
      if b < samples_per_channel then samples_per_channel else b
    else samples_per_channel
  base * num_channels % 2 ^ 32

/-- Modelled from the spec: the buffer-size law of claim C4 / §4.E in
the spec's own words — continuous mode takes `max(floor, spc)` with the
floor chosen by rate bucket, finite mode takes `spc`, both multiplied
by the channel count (reduced mod 2^32, the width of the field holding
it) — for comparison with `scan_start_buffer_size`. -/
def spec_buffer_size (continuous : Bool) (rate : ℚ)
    (samples_per_channel num_channels : Nat) : Nat :=
  let floorv : Nat := if rate ≤ 1024 then 1000
    else if rate ≤ 10240 then 10000 else 100000
  (if continuous then max floorv samples_per_channel
   else samples_per_channel) * num_channels % 2 ^ 32

/-- The read-threshold computation of lines 1716-1727.  `rate` comes
from the clock divisor so `rate ≤ 51200`; the `(uint16_t)` cast cannot
wrap there. -/
def scan_start_read_threshold (rate : ℚ) (channel_count : Nat) : Nat :=
  let rt := (Rat.floor (rate / 10)).toNat
  let rt := if rt > MAX_SAMPLES_READ then MAX_SAMPLES_READ else rt
  let rt := rt / channel_count * channel_count
  if rt = 0 then channel_count else rt

/-- The channel snapshot loop of lines 1623-1636. -/
def scan_channels (channel_mask : Nat) : List Nat :=
  (List.range NUM_CHANNELS).filter (fun c => channel_mask &&& 1 <<< c ≠ 0)

/-- `mcc172_a_in_scan_start`.  Oracles: `clock_reads` for the sync
loop, `start_result` for the CMD_AINSCANSTART transfer,
`thread_create_ok` for `pthread_create` (ring allocation is assumed to
succeed).  `none` models the non-terminating sync wait.  On every
failure path the session slot is left `none` exactly as the C code
frees and clears it. -/
def mcc172_a_in_scan_start (dev : Mcc172Device)
    (channel_mask samples_per_channel options : Nat)
    (clock_reads : List (Int × Nat × Nat)) (start_result : Int)
    (thread_create_ok : Bool) : Option (Int × Mcc172Device) :=
  if channel_mask = 0 ∨ channel_mask ≥ 2 ^ NUM_CHANNELS ∨
      (samples_per_channel = 0 ∧ options &&& OPTS_CONTINUOUS = 0) then
    some (RESULT_BAD_PARAMETER, dev)
  else if dev.scan_info.isSome then
    some (RESULT_BUSY, dev)
  else
    match scan_start_clock_sync clock_reads with
    | none => none
    | some (Sum.inl err) => some (err, dev)
    | some (Sum.inr rate) =>
      let chans := scan_channels channel_mask
      let cc := chans.length
      let bufsize :=
        scan_start_buffer_size (options &&& OPTS_CONTINUOUS ≠ 0) rate
          samples_per_channel cc
      let rt := scan_start_read_threshold rate cc
      if start_result ≠ RESULT_SUCCESS then some (start_result, dev)
      else if thread_create_ok = false then
        some (RESULT_RESOURCE_UNAVAIL, dev)
      else
        let inf : ScanInfo :=
          { buffer_size := bufsize, write_index := 0, read_index := 0,
            samples_transferred := 0, buffer_depth := 0,
            read_threshold := rt, options := options % 2 ^ 16,
            hw_overrun := false, buffer_overrun := false,
            thread_running := false, stop_thread := false,
            triggered := false, scan_running := true,
            channel_count := cc, channel_index := 0,
            channels := chans,
            slopes := chans.map (fun c => dev.slopes.getD c 0),
            offsets := chans.map (fun c => dev.offsets.getD c 0) }
        some (RESULT_SUCCESS, { dev with scan_info := some inf })

/- ***************************************************************** -/
/- Sample decoding and scaling (`_a_in_read_scan_data`, mcc172.c lines
   835-877, and the scaled/calibrated flags of `_scan_thread`, lines
   918-934). -/

/-- Reading a 32-bit pattern as a two's-complement `int32_t`. -/
def int32_of_uint32 (value : Nat) : Int :=
  if value < 2 ^ 31 then (value : Int) else (value : Int) - 2 ^ 32

/-- The 24-bit to signed 32-bit conversion of lines 838-851, exactly as
written: the high byte's sign bit selects an `0xFF000000` fill, and the
resulting 32-bit pattern is read as a two's-complement `int32_t`. -/
def sign_extend_24 (b0 b1 b2 : Nat) : Int :=
  int32_of_uint32
    (if b0 &&& 0x80 ≠ 0 then
      0xFF000000 ||| b0 <<< 16 ||| b1 <<< 8 ||| b2
    else
      b0 <<< 16 ||| b1 <<< 8 ||| b2)

/-- Calibration and scaling applied to one sample (lines 854-870):
`buffer[count] = value`, then `*= slope; += offset` when calibrated,
then `*= LSB_SIZE` when scaled. -/
def scan_sample_value (raw : Int) (slope offset : ℚ)
    (calibrated scaled : Bool) : ℚ :=
  let v : ℚ := (raw : ℚ)
  let v := if calibrated then v * slope + offset else v
  if scaled then v * LSB_SIZE else v

/-- `scaled` flag of `_scan_thread` (lines 918-925). -/
def scan_thread_scaled (options : Nat) : Bool :=
  options &&& OPTS_NOSCALEDATA = 0

/-- `calibrated` flag of `_scan_thread` (lines 927-934). -/
def scan_thread_calibrated (options : Nat) : Bool :=
  options &&& OPTS_NOCALIBRATEDATA = 0

/- ***************************************************************** -/
/- Producer ring-buffer commit (`_scan_thread`, mcc172.c lines
   1009-1026): after `_a_in_read_scan_data` succeeds, advance
   `write_index`, grow `buffer_depth`, detect overrun, and bump
   `samples_transferred`.  All four counters are u32.  The returned
   Bool is the loop's `done` flag as set by this block. -/

def producer_write_step (info : ScanInfo) (read_count : Nat) :
    ScanInfo × Bool :=
  let wi := (info.write_index + read_count) % 2 ^ 32
  let wi := if wi ≥ info.buffer_size then 0 else wi
  let depth := (info.buffer_depth + read_count) % 2 ^ 32
  let st := (info.samples_transferred + read_count) % 2 ^ 32
  let info := { info with write_index := wi, buffer_depth := depth }
  if depth > info.buffer_size then
    let info :=
      { info with buffer_overrun := true, scan_running := false,
                  samples_transferred := st }
    (info, true)
  else
    ({ info with samples_transferred := st }, false)

/- ***************************************************************** -/
/- Consumer read (`mcc172_a_in_scan_read`, mcc172.c lines 1898-2087).
   The producer thread and the monotonic clock are modelled by one
   oracle observation per loop iteration: how many samples the producer
   added to `buffer_depth` since the last look, the elapsed microseconds
   at the timeout check, the overrun flags, and `thread_running` as read
   in the loop condition.  The caller's output buffer is modelled as the
   list of samples copied out.  Entry null-pointer checks and the
   no-session (`RESULT_RESOURCE_UNAVAIL`) path concern invalid calls and
   are outside the modelled domain. -/

structure ScanReadObs where
  produced : Nat
  elapsed_us : Nat
  hw_overrun : Bool
  buffer_overrun : Bool
  thread_running : Bool
deriving Repr, DecidableEq

structure ScanReadLoopState where
  samples_to_read : Nat
  samples_read : Nat
  read_index : Nat
  buffer_depth : Nat
  stat : Nat
  error : Bool
  timed_out : Bool
  out : List Int
deriving Repr, DecidableEq

/-- `len` doubles of the ring starting at `start` (a `memcpy` from
`scan_buffer`). -/
def ringSlice (scan_buffer : Nat → Int) (start len : Nat) : List Int :=
  (List.range len).map (fun k => scan_buffer (start + k))

/-- One pass of the do/while body (lines 1978-2040): copy when at least
one full frame of samples is available, then the timeout check, then
the overrun flags. -/
def scan_read_iter (buffer_size channel_count : Nat)
    (scan_buffer : Nat → Int) (no_timeout : Bool) (timeout_us : Nat)
    (o : ScanReadObs) (s : ScanReadLoopState) : ScanReadLoopState :=
  let s := { s with buffer_depth := (s.buffer_depth + o.produced) % 2 ^ 32 }
  let s :=
    if s.buffer_depth ≥ channel_count then
      let current_read :=
        min s.buffer_depth s.samples_to_read / channel_count * channel_count
      let max_read := buffer_size - s.read_index
      if max_read < current_read then
        { s with
          out := s.out ++ ringSlice scan_buffer s.read_index max_read
                        ++ ringSlice scan_buffer 0 (current_read - max_read),
          samples_read := s.samples_read + current_read,
          read_index := current_read - max_read,
          samples_to_read := s.samples_to_read - current_read,
          buffer_depth := s.buffer_depth - current_read }
      else
        let ri := s.read_index + current_read
        { s with
          out := s.out ++ ringSlice scan_buffer s.read_index current_read,
          samples_read := s.samples_read + current_read,
          read_index := if ri ≥ buffer_size then 0 else ri,
          samples_to_read := s.samples_to_read - current_read,
          buffer_depth := s.buffer_depth - current_read }
    else s
  let s := { s with timed_out := !no_timeout && decide (o.elapsed_us ≥ timeout_us) }
  let s :=
    if o.hw_overrun then
      { s with stat := s.stat ||| STATUS_HW_OVERRUN, error := true }
    else s
  if o.buffer_overrun then
    { s with stat := s.stat ||| STATUS_BUFFER_OVERRUN, error := true }
  else s

/-- The do/while loop (lines 1978-2043).  `none` means the oracle ran
out before the loop exited. -/
def scan_read_loop (buffer_size channel_count : Nat)
    (scan_buffer : Nat → Int) (no_timeout : Bool) (timeout_us : Nat) :
    List ScanReadObs → ScanReadLoopState → Option ScanReadLoopState
  | [], _ => none
  | o :: rest, s =>
    let s := scan_read_iter buffer_size channel_count scan_buffer no_timeout
      timeout_us o s
    if s.samples_to_read > 0 ∧ s.error = false ∧
        (o.thread_running = false → s.buffer_depth > 0) ∧
        s.timed_out = false then
      scan_read_loop buffer_size channel_count scan_buffer no_timeout
        timeout_us rest s
    else some s

structure ScanReadResult where
  ret : Int
  stat : Nat
  samples_read : Nat
  samples_read_per_channel : Nat
  out : List Int
  samples_to_read : Nat
  timed_out : Bool
  read_index : Nat
  buffer_depth : Nat
deriving Repr, DecidableEq

/-- The body of `mcc172_a_in_scan_read` after the entry computations:
`no_timeout` / `timeout_us` (lines 1931-1940) and the entry value of
`samples_to_read` (lines 1953-1971) are taken as arguments. -/
def scan_read_core (buffer_size channel_count : Nat)
    (scan_buffer : Nat → Int) (entry_depth entry_read_index : Nat)
    (hw0 bo0 final_triggered final_scan_running : Bool)
    (no_timeout : Bool) (timeout_us : Nat) (timeout : ℚ)
    (samples_to_read : Nat) (obs : List ScanReadObs) :
    Option ScanReadResult :=
  if samples_to_read > 0 then
    match scan_read_loop buffer_size channel_count scan_buffer no_timeout
        timeout_us obs
        { samples_to_read := samples_to_read, samples_read := 0,
          read_index := entry_read_index, buffer_depth := entry_depth,
          stat := 0, error := false, timed_out := false, out := [] } with
    | none => none
    | some s =>
      let stat := s.stat ||| (if final_triggered then STATUS_TRIGGERED else 0)
                        ||| (if final_scan_running then STATUS_RUNNING else 0)
      let ret :=
        if no_timeout = false ∧ 0 < timeout ∧ s.timed_out = true ∧
            0 < s.samples_to_read then RESULT_TIMEOUT
        else RESULT_SUCCESS
      some { ret := ret, stat := stat, samples_read := s.samples_read,
             samples_read_per_channel := s.samples_read / channel_count,
             out := s.out, samples_to_read := s.samples_to_read,
             timed_out := s.timed_out, read_index := s.read_index,
             buffer_depth := s.buffer_depth }
  else
    let stat := ((if hw0 then STATUS_HW_OVERRUN else 0) |||
                  (if bo0 then STATUS_BUFFER_OVERRUN else 0)) |||
                (if final_triggered then STATUS_TRIGGERED else 0) |||
                (if final_scan_running then STATUS_RUNNING else 0)
    some { ret := RESULT_SUCCESS, stat := stat, samples_read := 0,
           samples_read_per_channel := 0, out := [], samples_to_read := 0,
           timed_out := false, read_index := entry_read_index,
           buffer_depth := entry_depth }

/-- `mcc172_a_in_scan_read`.  `entry_depth` / `entry_read_index` are the
session fields at entry, `hw0`/`bo0` the overrun flags read in the
status-only path (lines 2050-2066), `final_triggered` /
`final_scan_running` the flag values read after the loop (lines
2068-2075).  The `(uint32_t)(timeout * 1e6)` conversion truncates the
non-negative double toward zero, i.e. takes `⌊timeout * 10^6⌋`, written
below as integer division of the numerator by the denominator. -/
def mcc172_a_in_scan_read (buffer_size channel_count : Nat)
    (scan_buffer : Nat → Int) (entry_depth entry_read_index : Nat)
    (hw0 bo0 final_triggered final_scan_running : Bool)
    (samples_per_channel : Int) (timeout : ℚ) (buffer_size_samples : Nat)
    (obs : List ScanReadObs) : Option ScanReadResult :=
  let no_timeout : Bool := timeout < 0
  let timeout_us : Nat :=
    if timeout < 0 then 0
    else (timeout.num * 1000000 / (timeout.den : Int)).toNat % 2 ^ 32
  let str0 : Nat :=
    if samples_per_channel = -1 then entry_depth
    else (samples_per_channel * (channel_count : Int) % 2 ^ 32).toNat
  let str1 :=
    if buffer_size_samples < str0 then
      buffer_size_samples / channel_count * channel_count
    else str0
  scan_read_core buffer_size channel_count scan_buffer entry_depth
    entry_read_index hw0 bo0 final_triggered final_scan_running no_timeout
    timeout_us timeout str1 obs

/- ***************************************************************** -/
/- Framing lemmas. -/

theorem parseAux_of_found (buffer : List Nat) (fuel index : Nat)
    (st : ParseState) (h : st.found = true) :
    parseAux buffer fuel index st = st := by
  cases fuel with
  | zero => rfl
  | succ f => simp [parseAux, h]

/-- Running the scanner through the data state: with `m` payload bytes
left to count (`data_index + m = data_count`), `m` iterations complete
the frame. -/
theorem parseAux_consume (buffer : List Nat) :
    ∀ (m fuel index : Nat) (st : ParseState),
      st.found = false → st.parse_state = 5 →
      st.data_index + m = st.data_count → 1 ≤ m → m ≤ fuel →
      parseAux buffer fuel index st =
        { parse_state := 6, data_count := st.data_count,
          data_index := st.data_count, remaining := st.remaining - m,
          frame_length := st.data_count + MSG_RX_HEADER_SIZE,
          frame_start := st.frame_start, found := true } := by
  intro m
  induction m with
  | zero => intro fuel index st _ _ _ h1 _; omega
  | succ m ih =>
    intro fuel index st hf hs hcount _ hfuel
    obtain ⟨f, rfl⟩ : ∃ f, fuel = f + 1 := ⟨fuel - 1, by omega⟩
    rw [parseAux, if_neg (by simp [hf])]
    have hstep : parseStep (buffer.getD index 0) index st =
        if st.data_index + 1 ≥ st.data_count then
          { st with remaining := st.remaining - 1,
                    data_index := st.data_index + 1,
                    parse_state := 6, found := true,
                    frame_length := st.data_count + MSG_RX_HEADER_SIZE }
        else
          { st with remaining := st.remaining - 1,
                    data_index := st.data_index + 1 } := by
      rw [parseStep, hs]
    rcases Nat.eq_zero_or_pos m with hm | hm
    · subst hm
      rw [hstep, if_pos (by omega)]
      rw [parseAux_of_found _ _ _ _ rfl]
      have hdc : st.data_index + 1 = st.data_count := by omega
      simp [hdc]
    · rw [hstep, if_neg (by omega)]
      rw [ih f (index + 1) _ (by simp [hf]) (by simp [hs]) (by simp; omega) hm
        (by omega)]
      simp
      omega

theorem parseAux_succ (buffer : List Nat) (fuel index : Nat)
    (st : ParseState) :
    parseAux buffer (fuel + 1) index st =
      if st.found then st
      else parseAux buffer fuel (index + 1)
        (parseStep (buffer.getD index 0) index st) := rfl

theorem parseStep_state4 (b index : Nat) (st : ParseState)
    (h4 : st.parse_state = 4) :
    parseStep b index st =
      if st.data_count ||| b <<< 8 = 0 then
        { st with data_count := st.data_count ||| b <<< 8, remaining := 0,
                  found := true, frame_length := MSG_RX_HEADER_SIZE,
                  parse_state := 6 }
      else
        { st with data_count := st.data_count ||| b <<< 8,
                  remaining := st.data_count ||| b <<< 8,
                  parse_state := 5 } := by
  rw [parseStep, h4]

/-- Scanning a well-formed RX frame: the scanner completes with the
frame at offset 0 and `frame_length = count + 5`. -/
theorem parse_rx_frame (command status : Nat) (payload : List Nat)
    (h : payload.length ≤ 256) :
    parse_buffer (rx_frame command status payload) =
      { parse_state := 6, data_count := payload.length,
        data_index := payload.length, remaining := 0,
        frame_length := payload.length + MSG_RX_HEADER_SIZE,
        frame_start := 0, found := true } := by
  have hpre : parse_buffer (rx_frame command status payload) =
      parseAux (rx_frame command status payload) (payload.length + 1) 4
        ⟨4, payload.length % 256, 0, 0, 0, 0, false⟩ := rfl
  rw [hpre, parseAux_succ, if_neg (by simp)]
  have hb4 : (rx_frame command status payload).getD 4 0 =
      (payload.length >>> 8) % 256 := rfl
  rw [hb4, parseStep_state4 _ _ _ rfl]
  have hdc : (⟨4, payload.length % 256, 0, 0, 0, 0, false⟩ :
      ParseState).data_count ||| ((payload.length >>> 8) % 256) <<< 8 =
      payload.length := by
    have h16 : payload.length < 2 ^ 16 := by norm_num; omega
    exact lo_hi_recombine payload.length h16
  rw [hdc]
  rcases Nat.eq_zero_or_pos payload.length with hn | hn
  · rw [if_pos hn, parseAux_of_found _ _ _ _ rfl]
    simp only [hn]
    rfl
  · rw [if_neg (by omega)]
    rw [parseAux_consume (rx_frame command status payload) payload.length
      payload.length 5 _ rfl rfl (by simp) hn (le_refl _)]
    simp

/- ***************************************************************** -/
/- Claim C1. -/

/-- C1 (counterexample): the claimed encoder/scanner round trip fails.
`_create_frame` emits a TX frame with a 4-byte header (no status
byte), while `_parse_buffer` consumes RX frames with a 5-byte header;
for command 0x11 and the one-byte payload [1] the scanner reads the
payload byte as `count_hi` and reports no frame found. -/
theorem c1_encode_parse_no_roundtrip :
    create_frame 0x11 [1] = some [0xDB, 0x11, 1, 0, 1] ∧
    (parse_buffer [0xDB, 0x11, 1, 0, 1]).found = false := by
  constructor
  · rfl
  · decide

/-- C1 (amended): the round trip holds for the RX framing the scanner
actually consumes: for every command C, status byte S and payload P
with |P| ≤ 256, scanning `[0xDB, C, S, count_lo, count_hi] ++ P` finds
a frame at offset 0 of length 5 + |P|, whose command byte is C and
whose payload is P. -/
theorem c1_rx_frame_roundtrip (command status : Nat) (payload : List Nat)
    (h : payload.length ≤ 256) :
    (parse_buffer (rx_frame command status payload)).found = true ∧
    (parse_buffer (rx_frame command status payload)).frame_start = 0 ∧
    (parse_buffer (rx_frame command status payload)).frame_length =
      MSG_RX_HEADER_SIZE + payload.length ∧
    (rx_frame command status payload).getD
      ((parse_buffer (rx_frame command status payload)).frame_start + 1) 0 =
      command ∧
    ((rx_frame command status payload).drop MSG_RX_HEADER_SIZE).take
      payload.length = payload := by
  rw [parse_rx_frame command status payload h]
  refine ⟨rfl, rfl, Nat.add_comm _ _, rfl, ?_⟩
  show payload.take payload.length = payload
  exact List.take_length payload

/-- C1 witness: instance of the amended round trip at command 0x12,
status 0, payload [7, 8]. -/
theorem c1_rx_frame_roundtrip_witness :
    (parse_buffer (rx_frame 0x12 0 [7, 8])).found = true ∧
    (parse_buffer (rx_frame 0x12 0 [7, 8])).frame_start = 0 ∧
    (parse_buffer (rx_frame 0x12 0 [7, 8])).frame_length =
      MSG_RX_HEADER_SIZE + 2 ∧
    (rx_frame 0x12 0 [7, 8]).getD
      ((parse_buffer (rx_frame 0x12 0 [7, 8])).frame_start + 1) 0 = 0x12 ∧
    ((rx_frame 0x12 0 [7, 8]).drop MSG_RX_HEADER_SIZE).take 2 = [7, 8] :=
  c1_rx_frame_roundtrip 0x12 0 [7, 8] (by decide)

/- ***************************************************************** -/
/- Claim C10: parser safety invariant. -/

theorem byte_or_decompose (lo hi : Nat) (hlo : lo < 256) :
    lo ||| hi <<< 8 = lo + 256 * hi := by
  rw [Nat.or_comm, Nat.shiftLeft_eq]
  have h2 : (2 : Nat) ^ 8 = 256 := by norm_num
  have hlt : lo < 2 ^ 8 := by norm_num; omega
  rw [mul_pow_or_eq_add 8 hi lo hlt, h2]
  omega

/-- What a found frame guarantees at scan position `index`. -/
def parseGoodAt (buffer : List Nat) (index : Nat) (st : ParseState) : Prop :=
  st.frame_start + st.frame_length ≤ index ∧
  buffer.getD st.frame_start 0 = MSG_START ∧
  st.frame_length = MSG_RX_HEADER_SIZE +
    (buffer.getD (st.frame_start + 3) 0 +
      256 * buffer.getD (st.frame_start + 4) 0)

/-- Loop invariant of `_parse_buffer`, relating the state machine to the
absolute positions in the buffer. -/
def ParseInv (buffer : List Nat) (index : Nat) (st : ParseState) : Prop :=
  (st.found = true → parseGoodAt buffer index st) ∧
  (st.found = false →
    st.parse_state = 0 ∨
    (st.parse_state = 1 ∧ index = st.frame_start + 1 ∧
      buffer.getD st.frame_start 0 = MSG_START ∧ st.data_index = 0) ∨
    (st.parse_state = 2 ∧ index = st.frame_start + 2 ∧
      buffer.getD st.frame_start 0 = MSG_START ∧ st.data_index = 0) ∨
    (st.parse_state = 3 ∧ index = st.frame_start + 3 ∧
      buffer.getD st.frame_start 0 = MSG_START ∧ st.data_index = 0) ∨
    (st.parse_state = 4 ∧ index = st.frame_start + 4 ∧
      buffer.getD st.frame_start 0 = MSG_START ∧ st.data_index = 0 ∧
      st.data_count = buffer.getD (st.frame_start + 3) 0) ∨
    (st.parse_state = 5 ∧ index = st.frame_start + 5 + st.data_index ∧
      buffer.getD st.frame_start 0 = MSG_START ∧
      st.data_count = buffer.getD (st.frame_start + 3) 0 +
        256 * buffer.getD (st.frame_start + 4) 0 ∧
      st.data_index < st.data_count))

theorem parseStep_inv (buffer : List Nat)
    (hD : ∀ i, buffer.getD i 0 < 256) (index : Nat) (st : ParseState)
    (hinv : ParseInv buffer index st) (hf : st.found = false) :
    ParseInv buffer (index + 1)
      (parseStep (buffer.getD index 0) index st) := by
  rcases hinv.2 hf with h0 | h1 | h2 | h3 | h4 | h5
  · by_cases hb : buffer.getD index 0 = MSG_START
    · have hstep : parseStep (buffer.getD index 0) index st =
          { st with frame_start := index, data_count := 0, data_index := 0,
                    parse_state := 1 } := by
        rw [parseStep, h0, if_pos hb]
      rw [hstep]
      refine ⟨fun hfd => by simp [hf] at hfd, fun _ => ?_⟩
      right; left
      exact ⟨rfl, rfl, hb, rfl⟩
    · have hstep : parseStep (buffer.getD index 0) index st = st := by
        rw [parseStep, h0, if_neg hb]
      rw [hstep]
      refine ⟨fun hfd => by simp [hf] at hfd, fun _ => Or.inl h0⟩
  · have hstep : parseStep (buffer.getD index 0) index st =
        { st with parse_state := 2 } := by rw [parseStep, h1.1]
    rw [hstep]
    refine ⟨fun hfd => by simp [hf] at hfd, fun _ => ?_⟩
    right; right; left
    refine ⟨rfl, by simp; omega, h1.2.2.1, h1.2.2.2⟩
  · have hstep : parseStep (buffer.getD index 0) index st =
        { st with parse_state := 3 } := by rw [parseStep, h2.1]
    rw [hstep]
    refine ⟨fun hfd => by simp [hf] at hfd, fun _ => ?_⟩
    right; right; right; left
    refine ⟨rfl, by simp; omega, h2.2.2.1, h2.2.2.2⟩
  · have hstep : parseStep (buffer.getD index 0) index st =
        { st with data_count := buffer.getD index 0, parse_state := 4 } := by
      rw [parseStep, h3.1]
    rw [hstep]
    refine ⟨fun hfd => by simp [hf] at hfd, fun _ => ?_⟩
    right; right; right; right; left
    have hidx : index = st.frame_start + 3 := h3.2.1
    refine ⟨rfl, by simp; omega, h3.2.2.1, h3.2.2.2, by simp [hidx]⟩
  · have hdc : st.data_count ||| buffer.getD index 0 <<< 8 =
        buffer.getD (st.frame_start + 3) 0 +
          256 * buffer.getD (st.frame_start + 4) 0 := by
      rw [h4.2.2.2.2, ← h4.2.1]
      exact byte_or_decompose _ _ (hD _)
    have hstep := parseStep_state4 (buffer.getD index 0) index st h4.1
    by_cases hz : buffer.getD (st.frame_start + 3) 0 +
        256 * buffer.getD (st.frame_start + 4) 0 = 0
    · rw [hstep, if_pos (by rw [hdc]; exact hz)]
      refine ⟨fun _ => ?_, fun hfd => by simp at hfd⟩
      refine ⟨?_, ?_, ?_⟩
      · show st.frame_start + MSG_RX_HEADER_SIZE ≤ index + 1
        have := h4.2.1
        simp [MSG_RX_HEADER_SIZE]
        omega
      · show buffer.getD st.frame_start 0 = MSG_START
        exact h4.2.2.1
      · show MSG_RX_HEADER_SIZE = MSG_RX_HEADER_SIZE +
          (buffer.getD (st.frame_start + 3) 0 +
            256 * buffer.getD (st.frame_start + 4) 0)
        omega
    · rw [hstep, if_neg (by rw [hdc]; exact hz)]
      refine ⟨fun hfd => by simp [hf] at hfd, fun _ => ?_⟩
      right; right; right; right; right
      have hdi : st.data_index = 0 := h4.2.2.2.1
      refine ⟨rfl, ?_, h4.2.2.1, hdc, ?_⟩
      · show index + 1 = st.frame_start + 5 + st.data_index
        have := h4.2.1
        omega
      · show st.data_index < st.data_count ||| buffer.getD index 0 <<< 8
        have h' := hdc
        omega
  · have hstep : parseStep (buffer.getD index 0) index st =
        if st.data_index + 1 ≥ st.data_count then
          { st with remaining := st.remaining - 1,
                    data_index := st.data_index + 1,
                    parse_state := 6, found := true,
                    frame_length := st.data_count + MSG_RX_HEADER_SIZE }
        else
          { st with remaining := st.remaining - 1,
                    data_index := st.data_index + 1 } := by
      rw [parseStep, h5.1]
    obtain ⟨hps, hidx, hmsg, hcnt, hlt⟩ := h5
    by_cases hge : st.data_index + 1 ≥ st.data_count
    · rw [hstep, if_pos hge]
      refine ⟨fun _ => ⟨?_, hmsg, ?_⟩, fun hfd => by simp at hfd⟩
      · show st.frame_start + (st.data_count + MSG_RX_HEADER_SIZE) ≤ index + 1
        simp [MSG_RX_HEADER_SIZE]
        omega
      · show st.data_count + MSG_RX_HEADER_SIZE = MSG_RX_HEADER_SIZE +
          (buffer.getD (st.frame_start + 3) 0 +
            256 * buffer.getD (st.frame_start + 4) 0)
        omega
    · rw [hstep, if_neg hge]
      refine ⟨fun hfd => by simp [hf] at hfd, fun _ => ?_⟩
      right; right; right; right; right
      refine ⟨hps, by simp; omega, hmsg, hcnt, by simp; omega⟩

theorem parseAux_inv (buffer : List Nat)
    (hD : ∀ i, buffer.getD i 0 < 256) :
    ∀ (fuel index : Nat) (st : ParseState), ParseInv buffer index st →
      index + fuel ≤ buffer.length →
      ∃ j, j ≤ buffer.length ∧
        ParseInv buffer j (parseAux buffer fuel index st) := by
  intro fuel
  induction fuel with
  | zero =>
    intro index st hinv hb
    exact ⟨index, by omega, hinv⟩
  | succ f ih =>
    intro index st hinv hb
    rw [parseAux_succ]
    by_cases hf : st.found = true
    · rw [if_pos hf]
      exact ⟨index, by omega, hinv⟩
    · rw [if_neg hf]
      have hf' : st.found = false := by
        cases hsf : st.found
        · rfl
        · exact absurd hsf hf
      exact ih (index + 1) _ (parseStep_inv buffer hD index st hinv hf')
        (by omega)

/-- C10: whenever `_parse_buffer` reports `found`, the frame lies inside
the scanned region (`frame_start + frame_length ≤ length`), the byte at
`frame_start` is the start byte 0xDB, and `frame_length` is the 5-byte
header size plus the count field decoded (little-endian) from the
frame.  The hypotheses are exactly the C domain: the buffer holds bytes
and its uint16 length is below 2^16. -/
theorem c10_parse_frame_safety (buffer : List Nat)
    (hbyte : ∀ x ∈ buffer, x < 256) (_hlen : buffer.length < 65536)
    (hfound : (parse_buffer buffer).found = true) :
    (parse_buffer buffer).frame_start + (parse_buffer buffer).frame_length ≤
      buffer.length ∧
    buffer.getD (parse_buffer buffer).frame_start 0 = MSG_START ∧
    (parse_buffer buffer).frame_length = MSG_RX_HEADER_SIZE +
      (buffer.getD ((parse_buffer buffer).frame_start + 3) 0 +
        256 * buffer.getD ((parse_buffer buffer).frame_start + 4) 0) := by
  have hD : ∀ i, buffer.getD i 0 < 256 := by
    intro i
    by_cases hi : i < buffer.length
    · rw [List.getD_eq_getElem buffer 0 hi]
      exact hbyte _ (List.getElem_mem hi)
    · rw [List.getD_eq_default buffer 0 (by omega)]
      norm_num
  have hinv0 : ParseInv buffer 0 parseInit := by
    refine ⟨fun hfd => by simp [parseInit] at hfd, fun _ => Or.inl rfl⟩
  obtain ⟨j, hj, hinv⟩ := parseAux_inv buffer hD buffer.length 0 parseInit
    hinv0 (by omega)
  unfold parse_buffer at hfound ⊢
  have hgood := hinv.1 hfound
  exact ⟨le_trans hgood.1 hj, hgood.2.1, hgood.2.2⟩

/-- C10 witness: the frame `[0xDB, 1, 0, 2, 0, 9, 9]` (command 1,
status 0, count 2). -/
theorem c10_parse_frame_safety_witness :
    (parse_buffer [0xDB, 1, 0, 2, 0, 9, 9]).frame_start +
      (parse_buffer [0xDB, 1, 0, 2, 0, 9, 9]).frame_length ≤ 7 ∧
    ([0xDB, 1, 0, 2, 0, 9, 9] : List Nat).getD
      (parse_buffer [0xDB, 1, 0, 2, 0, 9, 9]).frame_start 0 = MSG_START ∧
    (parse_buffer [0xDB, 1, 0, 2, 0, 9, 9]).frame_length =
      MSG_RX_HEADER_SIZE +
      (([0xDB, 1, 0, 2, 0, 9, 9] : List Nat).getD
        ((parse_buffer [0xDB, 1, 0, 2, 0, 9, 9]).frame_start + 3) 0 +
        256 * ([0xDB, 1, 0, 2, 0, 9, 9] : List Nat).getD
          ((parse_buffer [0xDB, 1, 0, 2, 0, 9, 9]).frame_start + 4) 0) :=
  c10_parse_frame_safety [0xDB, 1, 0, 2, 0, 9, 9] (by decide) (by decide)
    (by decide)

/- ***************************************************************** -/
/- Claim C5. -/

/-- C5: `mcc172_open`'s ID handshake does NOT behave as specified.  When
every attempt's CMD_ID transfer fails (here: both time out), the
do/while of lines 1195-1220 exits with `attempts == 2` and the function
falls through to line 1223, returning RESULT_SUCCESS without ever
verifying the product id (and without storing a firmware version).
This contradicts the function's own comment ("verify that it is an MCC
172") and makes the fallback path of `mcc172_open_for_update` (lines
2219-2224), which exists precisely to tolerate such a failed open,
unreachable. -/
theorem c5_open_id_failed_handshake_returns_success :
    mcc172_open_id_phase (fun _ => (RESULT_TIMEOUT, 0, 0)) =
      (RESULT_SUCCESS, none) ∧
    RESULT_TIMEOUT ≠ RESULT_SUCCESS := by
  constructor
  · rfl
  · decide

/- ***************************************************************** -/
/- Claim C6. -/

/-- C6: the scaling formula has the claimed shape, but the code's
LSB_SIZE is `10 / 2^23` (line 34 divides the 10 V span by
`MAX_CODE + 1 = 2^23`), not the `10 / 2^24` of the specification.
Consequences at the failing input `raw = MAX_CODE` (slope 1, offset 0,
both conversions enabled): the delivered value is ≈ 9.9999988 V, which
exceeds the driver's own declared range maximum RANGE_MAX = 5 V and
disagrees with the driver's own `VOLTAGE_MAX = RANGE_MAX - LSB_SIZE`
("the input voltage corresponding to the maximum code"); with the
specified LSB of `10 / 2^24` the same sample would land exactly on
`RANGE_MAX - 10/2^24`, consistent with the declaration. -/
theorem c6_lsb_size_wrong :
    LSB_SIZE = 10 / 2 ^ 23 ∧
    LSB_SIZE ≠ 10 / 2 ^ 24 ∧
    scan_sample_value MAX_CODE 1 0 true true = (MAX_CODE : ℚ) * (10 / 2 ^ 23) ∧
    RANGE_MAX < scan_sample_value MAX_CODE 1 0 true true ∧
    scan_sample_value MAX_CODE 1 0 true true ≠ VOLTAGE_MAX ∧
    (MAX_CODE : ℚ) * (10 / 2 ^ 24) = RANGE_MAX - 10 / 2 ^ 24 := by
  refine ⟨?_, ?_, ?_, ?_, ?_, ?_⟩ <;>
    norm_num [LSB_SIZE, scan_sample_value, RANGE_MAX, RANGE_MIN, MAX_CODE,
      VOLTAGE_MAX]

/- ***************************************************************** -/
/- Claim C7. -/

/-- C7: the 24-bit conversion of `_a_in_read_scan_data` maps every byte
triple (b0, b1, b2) to the two's-complement sign extension of the
24-bit value `b0*65536 + b1*256 + b2`: values below 2^23 map to
themselves, the rest to `value - 2^24`. -/
theorem c7_sign_extension (b0 b1 b2 : Nat)
    (h0 : b0 < 256) (h1 : b1 < 256) (h2 : b2 < 256) :
    sign_extend_24 b0 b1 b2 =
      (if b0 * 65536 + b1 * 256 + b2 < 8388608 then
        ((b0 * 65536 + b1 * 256 + b2 : Nat) : Int)
      else ((b0 * 65536 + b1 * 256 + b2 : Nat) : Int) - 16777216) := by
  have e16 : (2 : Nat) ^ 16 = 65536 := by norm_num
  have e8 : (2 : Nat) ^ 8 = 256 := by norm_num
  have e31 : (2 : Nat) ^ 31 = 2147483648 := by norm_num
  have s0 : b0 <<< 16 = b0 * 65536 := by rw [Nat.shiftLeft_eq, e16]
  have s1 : b1 <<< 8 = b1 * 256 := by rw [Nat.shiftLeft_eq, e8]
  have o1 : b0 * 65536 ||| b1 * 256 = b0 * 65536 + b1 * 256 := by
    have h' := mul_pow_or_eq_add 16 b0 (b1 * 256) (by rw [e16]; omega)
    rw [e16] at h'
    exact h'
  have o2 : b0 * 65536 + b1 * 256 ||| b2 = b0 * 65536 + b1 * 256 + b2 := by
    have h' := mul_pow_or_eq_add 8 (b0 * 256 + b1) b2 (by rw [e8]; omega)
    have e : (b0 * 256 + b1) * 2 ^ 8 = b0 * 65536 + b1 * 256 := by
      rw [e8]; ring
    rw [e] at h'
    exact h'
  have hlow : b0 <<< 16 ||| b1 <<< 8 ||| b2 = b0 * 65536 + b1 * 256 + b2 := by
    rw [s0, s1, o1, o2]
  have hand : b0 &&& 0x80 = (b0.testBit 7).toNat * 2 ^ 7 := Nat.and_two_pow b0 7
  rcases Nat.lt_or_ge b0 128 with hcase | hcase
  · have htb : b0.testBit 7 = false :=
      Nat.testBit_lt_two_pow (by norm_num; omega)
    have hz : b0 &&& 0x80 = 0 := by rw [hand, htb]; simp
    unfold sign_extend_24
    rw [if_neg (by simp [hz]), hlow]
    unfold int32_of_uint32
    rw [if_pos (by rw [e31]; omega), if_pos (by omega)]
  · have htb : b0.testBit 7 = true := by
      have : b0 / 2 ^ 7 % 2 = 1 := by norm_num; omega
      rw [Nat.testBit_to_div_mod, this]
      rfl
    have hnz : b0 &&& 0x80 ≠ 0 := by
      rw [hand, htb]
      norm_num
    have ohi1 : (0xFF000000 : Nat) ||| b0 * 65536 =
        0xFF000000 + b0 * 65536 := by
      have h' := mul_pow_or_eq_add 24 0xFF (b0 * 65536)
        (by norm_num; omega)
      have e : (0xFF : Nat) * 2 ^ 24 = 0xFF000000 := by norm_num
      rw [e] at h'
      exact h'
    have ohi2 : (0xFF000000 + b0 * 65536) ||| b1 * 256 =
        0xFF000000 + b0 * 65536 + b1 * 256 := by
      have h' := mul_pow_or_eq_add 16 (0xFF00 + b0) (b1 * 256)
        (by rw [e16]; omega)
      have e : (0xFF00 + b0) * 2 ^ 16 = 0xFF000000 + b0 * 65536 := by
        rw [e16]; ring
      rw [e] at h'
      exact h'
    have ohi3 : (0xFF000000 + b0 * 65536 + b1 * 256) ||| b2 =
        0xFF000000 + b0 * 65536 + b1 * 256 + b2 := by
      have h' := mul_pow_or_eq_add 8 (0xFF0000 + b0 * 256 + b1) b2
        (by rw [e8]; omega)
      have e : (0xFF0000 + b0 * 256 + b1) * 2 ^ 8 =
          0xFF000000 + b0 * 65536 + b1 * 256 := by
        rw [e8]; ring
      rw [e] at h'
      exact h'
    unfold sign_extend_24
    rw [if_pos hnz, s0, s1, ohi1, ohi2, ohi3]
    unfold int32_of_uint32
    rw [if_neg (by rw [e31]; omega), if_neg (by omega)]
    push_cast
    omega

/-- C7 witness: the three byte triples named by the claim. -/
theorem c7_sign_extension_witness :
    sign_extend_24 0x80 0x00 0x00 = -8388608 ∧
    sign_extend_24 0x7F 0xFF 0xFF = 8388607 ∧
    sign_extend_24 0x00 0x00 0x01 = 1 := by
  refine ⟨?_, ?_, ?_⟩
  · rw [c7_sign_extension 0x80 0x00 0x00 (by decide) (by decide) (by decide)]
    decide
  · rw [c7_sign_extension 0x7F 0xFF 0xFF (by decide) (by decide) (by decide)]
    decide
  · rw [c7_sign_extension 0x00 0x00 0x01 (by decide) (by decide) (by decide)]
    decide

/- ***************************************************************** -/
/- Claim C2. -/

/-- C2: once `_spi_transfer` has located a frame, a matching reply
command byte maps the firmware status to the result — 0x00 to Success
(copying `rx_data_count` payload bytes out when positive), 0x02 to
BadParameter, 0x03 to Busy, 0x05 to Timeout, everything else to
Undefined — and a command mismatch yields BadParameter. -/
theorem c2_spi_reply_status_mapping (tx_command : Nat)
    (rx_buffer : List Nat) (frame_start rx_data_count : Nat) :
    (rx_buffer.getD (frame_start + 1) 0 = tx_command →
      (rx_buffer.getD (frame_start + 2) 0 = 0x00 →
        spi_reply_result tx_command rx_buffer frame_start rx_data_count =
          (RESULT_SUCCESS,
            if rx_data_count > 0 then
              some ((rx_buffer.drop (frame_start + 5)).take rx_data_count)
            else none)) ∧
      (rx_buffer.getD (frame_start + 2) 0 = 0x02 →
        spi_reply_result tx_command rx_buffer frame_start rx_data_count =
          (RESULT_BAD_PARAMETER, none)) ∧
      (rx_buffer.getD (frame_start + 2) 0 = 0x03 →
        spi_reply_result tx_command rx_buffer frame_start rx_data_count =
          (RESULT_BUSY, none)) ∧
      (rx_buffer.getD (frame_start + 2) 0 = 0x05 →
        spi_reply_result tx_command rx_buffer frame_start rx_data_count =
          (RESULT_TIMEOUT, none)) ∧
      (rx_buffer.getD (frame_start + 2) 0 ≠ 0x00 →
        rx_buffer.getD (frame_start + 2) 0 ≠ 0x02 →
        rx_buffer.getD (frame_start + 2) 0 ≠ 0x03 →
        rx_buffer.getD (frame_start + 2) 0 ≠ 0x05 →
        spi_reply_result tx_command rx_buffer frame_start rx_data_count =
          (RESULT_UNDEFINED, none))) ∧
    (rx_buffer.getD (frame_start + 1) 0 ≠ tx_command →
      spi_reply_result tx_command rx_buffer frame_start rx_data_count =
        (RESULT_BAD_PARAMETER, none)) := by
  refine ⟨fun hc => ⟨?_, ?_, ?_, ?_, ?_⟩, fun hc => ?_⟩
  · intro h0
    simp only [spi_reply_result]
    rw [if_pos hc, if_pos h0]
  · intro h2
    simp only [spi_reply_result]
    rw [if_pos hc, if_neg (by omega), if_pos h2]
  · intro h3
    simp only [spi_reply_result]
    rw [if_pos hc, if_neg (by omega), if_neg (by omega), if_neg (by omega),
      if_pos h3]
  · intro h5
    simp only [spi_reply_result]
    rw [if_pos hc, if_neg (by omega), if_neg (by omega), if_pos h5]
  · intro h0 h2 h3 h5
    simp only [spi_reply_result]
    rw [if_pos hc, if_neg (by omega), if_neg (by omega), if_neg (by omega),
      if_neg (by omega)]
  · simp only [spi_reply_result]
    rw [if_neg hc]

/-- C2 witness: a Success reply to CMD_ID carrying one payload byte. -/
theorem c2_spi_reply_status_mapping_witness :
    spi_reply_result 0x41 [0xDB, 0x41, 0x00, 0x01, 0x00, 0x45] 0 1 =
      (RESULT_SUCCESS, some [0x45]) := by
  rw [((c2_spi_reply_status_mapping 0x41 [0xDB, 0x41, 0x00, 0x01, 0x00, 0x45]
    0 1).1 (by decide)).1 (by decide)]
  decide

/- ***************************************************************** -/
/- Claim C8. -/

/-- C8: after the producer commits `read_count` samples (mcc172.c lines
1009-1026), either the stored `buffer_depth` exceeds `buffer_size` — and
then `buffer_overrun := true`, `scan_running := false` and the loop's
`done` flag is set, terminating the producer — or `buffer_depth ≤
buffer_size` holds and the flags are untouched.  `buffer_size` itself
never changes and the stored depth is the u32 sum. -/
theorem c8_producer_overrun_step (info : ScanInfo) (read_count : Nat) :
    ((producer_write_step info read_count).1.buffer_depth >
        (producer_write_step info read_count).1.buffer_size →
      (producer_write_step info read_count).1.buffer_overrun = true ∧
      (producer_write_step info read_count).1.scan_running = false ∧
      (producer_write_step info read_count).2 = true) ∧
    ((producer_write_step info read_count).1.buffer_depth ≤
        (producer_write_step info read_count).1.buffer_size →
      (producer_write_step info read_count).1.buffer_overrun =
        info.buffer_overrun ∧
      (producer_write_step info read_count).1.scan_running =
        info.scan_running ∧
      (producer_write_step info read_count).2 = false) ∧
    (producer_write_step info read_count).1.buffer_size =
      info.buffer_size ∧
    (producer_write_step info read_count).1.buffer_depth =
      (info.buffer_depth + read_count) % 2 ^ 32 := by
  have hcase : producer_write_step info read_count =
      (if (info.buffer_depth + read_count) % 2 ^ 32 > info.buffer_size then
        ({ info with
            write_index :=
              if (info.write_index + read_count) % 2 ^ 32 ≥ info.buffer_size
              then 0 else (info.write_index + read_count) % 2 ^ 32,
            buffer_depth := (info.buffer_depth + read_count) % 2 ^ 32,
            buffer_overrun := true, scan_running := false,
            samples_transferred :=
              (info.samples_transferred + read_count) % 2 ^ 32 }, true)
      else
        ({ info with
            write_index :=
              if (info.write_index + read_count) % 2 ^ 32 ≥ info.buffer_size
              then 0 else (info.write_index + read_count) % 2 ^ 32,
            buffer_depth := (info.buffer_depth + read_count) % 2 ^ 32,
            samples_transferred :=
              (info.samples_transferred + read_count) % 2 ^ 32 }, false)) := by
    unfold producer_write_step
    dsimp only
  rw [hcase]
  by_cases h : (info.buffer_depth + read_count) % 2 ^ 32 > info.buffer_size
  · rw [if_pos h]
    refine ⟨fun _ => ⟨rfl, rfl, rfl⟩, fun hle => ?_, rfl, rfl⟩
    have hle' : (info.buffer_depth + read_count) % 2 ^ 32 ≤
        info.buffer_size := hle
    omega
  · rw [if_neg h]
    refine ⟨fun hgt => ?_, fun _ => ⟨rfl, rfl, rfl⟩, rfl, rfl⟩
    have hgt' : (info.buffer_depth + read_count) % 2 ^ 32 >
        info.buffer_size := hgt
    omega

/-- C8 witness: buffer of size 4 holding 3 unread samples receives 2
more — overrun. -/
theorem c8_producer_overrun_step_witness :
    (producer_write_step
      ⟨4, 0, 0, 0, 3, 2, 0, false, false, true, false, true, true, 2, 0,
        [0, 1], [1, 1], [0, 0]⟩ 2).1.buffer_overrun = true ∧
    (producer_write_step
      ⟨4, 0, 0, 0, 3, 2, 0, false, false, true, false, true, true, 2, 0,
        [0, 1], [1, 1], [0, 0]⟩ 2).1.scan_running = false ∧
    (producer_write_step
      ⟨4, 0, 0, 0, 3, 2, 0, false, false, true, false, true, true, 2, 0,
        [0, 1], [1, 1], [0, 0]⟩ 2).2 = true :=
  (c8_producer_overrun_step
    ⟨4, 0, 0, 0, 3, 2, 0, false, false, true, false, true, true, 2, 0,
      [0, 1], [1, 1], [0, 0]⟩ 2).1 (by decide)

/- ***************************************************************** -/
/- Claim C3. -/

/-- C3: while a scan session exists (`scan_info` non-null), every
configuration-mutating operation called with otherwise-valid parameters
returns Busy, leaves the cached device state unchanged, and issues no
SPI command; a second `a_in_scan_start` likewise returns Busy with the
device unchanged, for every oracle. -/
theorem c3_busy_lockout (dev : Mcc172Device)
    (hbusy : dev.scan_info.isSome = true) :
    (∀ (channel : Nat) (slope offset : ℚ), channel < NUM_CHANNELS →
      mcc172_calibration_coefficient_write dev channel slope offset =
        (RESULT_BUSY, dev)) ∧
    (∀ (spi : SpiOracle) (source mode : Nat), source ≤ 2 →
      mode ≤ TRIG_ACTIVE_LOW →
      mcc172_trigger_config spi dev source mode = (RESULT_BUSY, dev, [])) ∧
    (∀ (spi : SpiOracle) (channel config : Nat), channel < NUM_CHANNELS →
      config ≤ 1 →
      mcc172_IEPE_config_write spi dev channel config =
        (RESULT_BUSY, dev, [])) ∧
    (∀ (spi : SpiOracle) (clock_source : Nat) (rate : ℚ), clock_source ≤ 1 →
      mcc172_a_in_clock_config_write spi dev clock_source rate =
        (RESULT_BUSY, dev, [])) ∧
    (∀ (mask spc opts : Nat) (clock_reads : List (Int × Nat × Nat))
        (sr : Int) (tok : Bool), mask ≠ 0 → mask < 2 ^ NUM_CHANNELS →
      (spc ≠ 0 ∨ opts &&& OPTS_CONTINUOUS ≠ 0) →
      mcc172_a_in_scan_start dev mask spc opts clock_reads sr tok =
        some (RESULT_BUSY, dev)) := by
  refine ⟨fun channel slope offset hch => ?_,
    fun spi source mode hs hm => ?_,
    fun spi channel config hch hcf => ?_,
    fun spi cs rate hcs => ?_,
    fun mask spc opts cr sr tok hm0 hm4 hv => ?_⟩
  · unfold mcc172_calibration_coefficient_write
    rw [if_neg (by omega), if_pos hbusy]
  · unfold mcc172_trigger_config
    rw [if_neg (by push_neg; exact ⟨hs, hm⟩), if_pos hbusy]
  · unfold mcc172_IEPE_config_write
    rw [if_neg (by push_neg; exact ⟨hch, hcf⟩), if_pos hbusy]
  · unfold mcc172_a_in_clock_config_write
    rw [if_neg (by omega), if_pos hbusy]
  · unfold mcc172_a_in_scan_start
    rw [if_neg ?_, if_pos hbusy]
    push_neg
    refine ⟨hm0, ?_, fun hspc => ?_⟩
    · simpa [NUM_CHANNELS] using hm4
    · rcases hv with h | h
      · exact absurd hspc h
      · exact h

/-- A device with an active scan session, for exercising the Busy
lockout. -/
def c3BusyDevice : Mcc172Device :=
  ⟨1, 0, 0, 0, [1, 1], [0, 0],
    some ⟨1000, 0, 0, 0, 0, 2, 0, false, false, true, false, true, true,
      2, 0, [0, 1], [1, 1], [0, 0]⟩⟩

/-- An SPI oracle that always succeeds with an empty payload. -/
def c3Spi : SpiOracle := fun _ _ => (RESULT_SUCCESS, [])

/-- C3 witness: every lockout conjunct exercised on `c3BusyDevice`. -/
theorem c3_busy_lockout_witness :
    mcc172_calibration_coefficient_write c3BusyDevice 0 2 3 =
      (RESULT_BUSY, c3BusyDevice) ∧
    mcc172_trigger_config c3Spi c3BusyDevice 0 1 =
      (RESULT_BUSY, c3BusyDevice, []) ∧
    mcc172_IEPE_config_write c3Spi c3BusyDevice 1 1 =
      (RESULT_BUSY, c3BusyDevice, []) ∧
    mcc172_a_in_clock_config_write c3Spi c3BusyDevice 0 1000 =
      (RESULT_BUSY, c3BusyDevice, []) ∧
    mcc172_a_in_scan_start c3BusyDevice 3 500 0 [] RESULT_SUCCESS true =
      some (RESULT_BUSY, c3BusyDevice) := by
  have h := c3_busy_lockout c3BusyDevice rfl
  exact ⟨h.1 0 2 3 (by decide), h.2.1 c3Spi 0 1 (by decide) (by decide),
    h.2.2.1 c3Spi 1 1 (by decide) (by decide),
    h.2.2.2.1 c3Spi 0 1000 (by decide),
    h.2.2.2.2 3 500 0 [] RESULT_SUCCESS true (by decide) (by decide)
      (Or.inl (by decide))⟩

/- ***************************************************************** -/
/- Claim C4. -/

/-- C4 (counterexample): the 16 Mi hard upper bound is not enforced.
`MAX_SCAN_BUFFER_SIZE_SAMPLES` is defined (mcc172.c:128) but never
used: a successful finite-mode start with samples_per_channel = 2^24
on both channels allocates a 2^25-sample ring, twice the claimed cap. -/
theorem c4_buffer_cap_not_enforced :
    ((mcc172_a_in_scan_start ⟨1, 0, 0, 0, [1, 1], [0, 0], none⟩ 3 16777216 0
        [(RESULT_SUCCESS, 128, 49)] RESULT_SUCCESS true).map
      (fun p => (p.1, p.2.scan_info.map ScanInfo.buffer_size))) =
      some (RESULT_SUCCESS, some 33554432) ∧
    MAX_SCAN_BUFFER_SIZE_SAMPLES < 33554432 := by
  exact ⟨by decide, by decide⟩

/-- C4 (amended): after a successful `mcc172_a_in_scan_start`, the
session's `buffer_size` equals `samples_per_channel * channel_count`
in finite mode and `max(floor, samples_per_channel) * channel_count`
in continuous mode — floor 1000 for rate ≤ 1024, 10000 for
rate ≤ 10240, 100000 otherwise — reduced mod 2^32 (the u32 field
width); no 16 Mi cap is applied. -/
theorem c4_buffer_size_formula :
    (∀ (continuous : Bool) (rate : ℚ) (spc nc : Nat),
      scan_start_buffer_size continuous rate spc nc =
        spec_buffer_size continuous rate spc nc) ∧
    (∀ (dev : Mcc172Device) (mask spc opts : Nat)
        (clock_reads : List (Int × Nat × Nat)) (sr : Int) (tok : Bool)
        (dev2 : Mcc172Device) (rate : ℚ),
      mcc172_a_in_scan_start dev mask spc opts clock_reads sr tok =
        some (RESULT_SUCCESS, dev2) →
      scan_start_clock_sync clock_reads = some (Sum.inr rate) →
      ∃ inf, dev2.scan_info = some inf ∧
        inf.channel_count = (scan_channels mask).length ∧
        inf.buffer_size = spec_buffer_size (opts &&& OPTS_CONTINUOUS ≠ 0)
          rate spc (scan_channels mask).length) := by
  have hpart1 : ∀ (continuous : Bool) (rate : ℚ) (spc nc : Nat),
      scan_start_buffer_size continuous rate spc nc =
        spec_buffer_size continuous rate spc nc := by
    intro continuous rate spc nc
    cases continuous with
    | false => rfl
    | true =>
      have ha : scan_start_buffer_size true rate spc nc =
          (if (if rate ≤ 1024 then 1000
              else if rate ≤ 10240 then (10000 : Nat) else 100000) < spc
            then spc
            else if rate ≤ 1024 then 1000
              else if rate ≤ 10240 then 10000 else 100000) * nc % 2 ^ 32 :=
        rfl
      have hb : spec_buffer_size true rate spc nc =
          max (if rate ≤ 1024 then 1000
            else if rate ≤ 10240 then (10000 : Nat) else 100000) spc *
            nc % 2 ^ 32 := rfl
      rw [ha, hb]
      congr 2
      rcases Nat.lt_or_ge (if rate ≤ 1024 then 1000
        else if rate ≤ 10240 then (10000 : Nat) else 100000) spc with
        hlt | hge
      · rw [if_pos hlt, Nat.max_eq_right (Nat.le_of_lt hlt)]
      · rw [if_neg (Nat.not_lt.mpr hge), Nat.max_eq_left hge]
  refine ⟨hpart1, ?_⟩
  intro dev mask spc opts clock_reads sr tok dev2 rate hrun hsync
  unfold mcc172_a_in_scan_start at hrun
  by_cases hval : mask = 0 ∨ mask ≥ 2 ^ NUM_CHANNELS ∨
      (spc = 0 ∧ opts &&& OPTS_CONTINUOUS = 0)
  · rw [if_pos hval] at hrun
    have hbad : RESULT_BAD_PARAMETER = RESULT_SUCCESS := by
      have h := congrArg (fun p => p.map Prod.fst) hrun
      simpa using h
    exact absurd hbad (by decide)
  · rw [if_neg hval] at hrun
    by_cases hbusy : dev.scan_info.isSome = true
    · rw [if_pos hbusy] at hrun
      have hbad : RESULT_BUSY = RESULT_SUCCESS := by
        have h := congrArg (fun p => p.map Prod.fst) hrun
        simpa using h
      exact absurd hbad (by decide)
    · rw [if_neg hbusy, hsync] at hrun
      dsimp only at hrun
      by_cases hsr : sr ≠ RESULT_SUCCESS
      · rw [if_pos hsr] at hrun
        have : sr = RESULT_SUCCESS := by
          have := congrArg (fun p => p.map Prod.fst) hrun
          simpa using this
        exact absurd this hsr
      · rw [if_neg hsr] at hrun
        by_cases htok : tok = false
        · rw [if_pos htok] at hrun
          have hbad : RESULT_RESOURCE_UNAVAIL = RESULT_SUCCESS := by
            have h := congrArg (fun p => p.map Prod.fst) hrun
            simpa using h
          exact absurd hbad (by decide)
        · rw [if_neg htok] at hrun
          have hpair := Option.some_injective _ hrun
          have hdev2 : dev2 = _ := (congrArg Prod.snd hpair).symm
          refine ⟨_, by rw [hdev2], rfl, ?_⟩
          exact hpart1 _ rate spc (scan_channels mask).length

/-- C4 witness: a successful finite-mode start (samples_per_channel
2^24, both channels) satisfies the buffer-size formula. -/
theorem c4_buffer_size_formula_witness :
    ∃ dev2 inf,
      mcc172_a_in_scan_start ⟨1, 0, 0, 0, [1, 1], [0, 0], none⟩ 3
        16777216 0 [(RESULT_SUCCESS, 128, 49)] RESULT_SUCCESS true =
        some (RESULT_SUCCESS, dev2) ∧
      dev2.scan_info = some inf ∧
      inf.channel_count = (scan_channels 3).length ∧
      inf.buffer_size =
        spec_buffer_size ((0 : Nat) &&& OPTS_CONTINUOUS ≠ 0)
          ((MAX_SAMPLE_RATE : ℚ) / (((49 : Nat) : ℚ) + 1)) 16777216
          (scan_channels 3).length := by
  obtain ⟨inf, h1, h2, h3⟩ :=
    c4_buffer_size_formula.2 ⟨1, 0, 0, 0, [1, 1], [0, 0], none⟩ 3
      16777216 0 [(RESULT_SUCCESS, 128, 49)] RESULT_SUCCESS true _
      ((MAX_SAMPLE_RATE : ℚ) / (((49 : Nat) : ℚ) + 1)) rfl rfl
  exact ⟨_, inf, rfl, h1, h2, h3⟩

/- ***************************************************************** -/
/- Claim C9: scan_read lemmas. -/

theorem scan_read_loop_cons (bs cc : Nat) (sb : Nat → Int) (nt : Bool)
    (tu : Nat) (o : ScanReadObs) (rest : List ScanReadObs)
    (s : ScanReadLoopState) :
    scan_read_loop bs cc sb nt tu (o :: rest) s =
      (if (scan_read_iter bs cc sb nt tu o s).samples_to_read > 0 ∧
          (scan_read_iter bs cc sb nt tu o s).error = false ∧
          (o.thread_running = false →
            (scan_read_iter bs cc sb nt tu o s).buffer_depth > 0) ∧
          (scan_read_iter bs cc sb nt tu o s).timed_out = false then
        scan_read_loop bs cc sb nt tu rest (scan_read_iter bs cc sb nt tu o s)
      else some (scan_read_iter bs cc sb nt tu o s)) := rfl

/-- Each iteration appends exactly as many samples to the caller's
buffer as it adds to `samples_read`. -/
theorem scan_read_iter_out_length (bs cc : Nat) (sb : Nat → Int)
    (nt : Bool) (tu : Nat) (o : ScanReadObs) (s : ScanReadLoopState)
    (h : s.samples_read = s.out.length) :
    (scan_read_iter bs cc sb nt tu o s).samples_read =
      (scan_read_iter bs cc sb nt tu o s).out.length := by
  unfold scan_read_iter
  dsimp only
  split_ifs <;>
    simp only [ringSlice, List.length_append, List.length_map,
      List.length_range, h] <;>
    omega

/-- The iteration's `timed_out` only depends on the clock observation. -/
theorem scan_read_iter_timed_out (bs cc : Nat) (sb : Nat → Int)
    (nt : Bool) (tu : Nat) (o : ScanReadObs) (s : ScanReadLoopState) :
    (scan_read_iter bs cc sb nt tu o s).timed_out =
      (!nt && decide (o.elapsed_us ≥ tu)) := by
  unfold scan_read_iter
  dsimp only
  split_ifs <;> rfl

/-- An iteration with clean overrun flags leaves `stat` untouched. -/
theorem scan_read_iter_stat (bs cc : Nat) (sb : Nat → Int) (nt : Bool)
    (tu : Nat) (o : ScanReadObs) (s : ScanReadLoopState)
    (hh : o.hw_overrun = false) (hb : o.buffer_overrun = false) :
    (scan_read_iter bs cc sb nt tu o s).stat = s.stat := by
  unfold scan_read_iter
  dsimp only
  rw [if_neg (by simp [hb]), if_neg (by simp [hh])]
  split_ifs <;> rfl

theorem scan_read_loop_out_length (bs cc : Nat) (sb : Nat → Int)
    (nt : Bool) (tu : Nat) :
    ∀ (obs : List ScanReadObs) (s s' : ScanReadLoopState),
      scan_read_loop bs cc sb nt tu obs s = some s' →
      s.samples_read = s.out.length →
      s'.samples_read = s'.out.length := by
  intro obs
  induction obs with
  | nil =>
    intro s s' h _
    simp [scan_read_loop] at h
  | cons o rest ih =>
    intro s s' h hinv
    rw [scan_read_loop_cons] at h
    split at h
    · exact ih _ s' h (scan_read_iter_out_length bs cc sb nt tu o s hinv)
    · rw [← Option.some.inj h]
      exact scan_read_iter_out_length bs cc sb nt tu o s hinv

theorem scan_read_loop_stat (bs cc : Nat) (sb : Nat → Int) (nt : Bool)
    (tu : Nat) :
    ∀ (obs : List ScanReadObs) (s s' : ScanReadLoopState),
      scan_read_loop bs cc sb nt tu obs s = some s' →
      (∀ o ∈ obs, o.hw_overrun = false ∧ o.buffer_overrun = false) →
      s'.stat = s.stat := by
  intro obs
  induction obs with
  | nil =>
    intro s s' h _
    simp [scan_read_loop] at h
  | cons o rest ih =>
    intro s s' h hflags
    have ho := hflags o (List.mem_cons_self o rest)
    have hstat := scan_read_iter_stat bs cc sb nt tu o s ho.1 ho.2
    rw [scan_read_loop_cons] at h
    split at h
    · rw [ih _ s' h (fun x hx => hflags x (List.mem_cons_of_mem o hx))]
      exact hstat
    · rw [← Option.some.inj h]
      exact hstat

/-- C9 (counterexample): `samples_per_channel = -1` does not guarantee
Success.  With 2 channels and 3 samples available (an odd remainder the
loop can never copy), a positive timeout expires with
`samples_to_read = 1 > 0` and the code returns RESULT_TIMEOUT, where
the claim demands Success with whatever was available. -/
theorem c9_minus_one_not_success :
    (mcc172_a_in_scan_read 8 2 (fun k => (k : Int)) 3 0 false false true
        true (-1) 1 100 [⟨0, 2000000, false, false, true⟩]).map
      ScanReadResult.ret = some RESULT_TIMEOUT ∧
    RESULT_TIMEOUT ≠ RESULT_SUCCESS := by
  exact ⟨by decide, by decide⟩

/-- Behaviour of the scan-read body for an arbitrary entry
`samples_to_read` and timeout parameters. -/
theorem scan_read_core_spec (bs cc : Nat) (sb : Nat → Int)
    (d0 ri0 : Nat) (hw0 bo0 ftrig frun : Bool) (nt : Bool) (tu : Nat)
    (timeout : ℚ) (n : Nat) (obs : List ScanReadObs) :
    (∀ r, 0 < timeout → nt = false →
      scan_read_core bs cc sb d0 ri0 hw0 bo0 ftrig frun nt tu timeout n
        obs = some r →
      r.timed_out = true → 0 < r.samples_to_read →
      r.ret = RESULT_TIMEOUT ∧ r.out.length = r.samples_read ∧
      r.samples_read_per_channel = r.samples_read / cc ∧
      ((∀ o ∈ obs, o.hw_overrun = false ∧ o.buffer_overrun = false) →
        r.stat = (if ftrig then STATUS_TRIGGERED else 0) +
          (if frun then STATUS_RUNNING else 0))) ∧
    (∀ r, ¬(0 < timeout) →
      scan_read_core bs cc sb d0 ri0 hw0 bo0 ftrig frun nt tu timeout n
        obs = some r →
      r.ret = RESULT_SUCCESS ∧ r.out.length = r.samples_read) ∧
    (nt = false → tu = 0 → obs ≠ [] →
      scan_read_core bs cc sb d0 ri0 hw0 bo0 ftrig frun nt tu timeout n
        obs ≠ none) := by
  refine ⟨?_, ?_, ?_⟩
  · intro r htime hnt hrun htd hrem
    unfold scan_read_core at hrun
    by_cases h1 : n > 0
    · rw [if_pos h1] at hrun
      cases hE : scan_read_loop bs cc sb nt tu obs
          { samples_to_read := n, samples_read := 0, read_index := ri0,
            buffer_depth := d0, stat := 0, error := false,
            timed_out := false, out := [] } with
      | none => rw [hE] at hrun; simp at hrun
      | some s =>
        rw [hE] at hrun
        dsimp only at hrun
        obtain rfl := Option.some.inj hrun
        dsimp only at htd hrem ⊢
        refine ⟨?_, ?_, rfl, ?_⟩
        · rw [if_pos ⟨hnt, htime, htd, hrem⟩]
        · exact (scan_read_loop_out_length bs cc sb nt tu obs _ s hE
            rfl).symm
        · intro hflags
          have hstat := scan_read_loop_stat bs cc sb nt tu obs _ s hE
            hflags
          rw [hstat]
          dsimp only
          cases ftrig <;> cases frun <;> decide
    · rw [if_neg h1] at hrun
      obtain rfl := Option.some.inj hrun
      dsimp only at hrem
      omega
  · intro r hnot hrun
    unfold scan_read_core at hrun
    by_cases h1 : n > 0
    · rw [if_pos h1] at hrun
      cases hE : scan_read_loop bs cc sb nt tu obs
          { samples_to_read := n, samples_read := 0, read_index := ri0,
            buffer_depth := d0, stat := 0, error := false,
            timed_out := false, out := [] } with
      | none => rw [hE] at hrun; simp at hrun
      | some s =>
        rw [hE] at hrun
        dsimp only at hrun
        obtain rfl := Option.some.inj hrun
        dsimp only
        refine ⟨?_, (scan_read_loop_out_length bs cc sb nt tu obs _ s hE
          rfl).symm⟩
        rw [if_neg ?_]
        rintro ⟨-, h2, -, -⟩
        exact hnot h2
    · rw [if_neg h1] at hrun
      obtain rfl := Option.some.inj hrun
      exact ⟨rfl, rfl⟩
  · intro hnt htu hne hnone
    unfold scan_read_core at hnone
    cases obs with
    | nil => exact hne rfl
    | cons o rest =>
      by_cases h1 : n > 0
      · rw [if_pos h1] at hnone
        cases hE : scan_read_loop bs cc sb nt tu (o :: rest)
            { samples_to_read := n, samples_read := 0, read_index := ri0,
              buffer_depth := d0, stat := 0, error := false,
              timed_out := false, out := [] } with
        | none =>
          rw [scan_read_loop_cons] at hE
          split at hE
          · rename_i hc
            have h4 := hc.2.2.2
            rw [scan_read_iter_timed_out, hnt, htu] at h4
            simp at h4
          · simp at hE
        | some s =>
          rw [hE] at hnone
          dsimp only at hnone
          simp at hnone
      · rw [if_neg h1] at hnone
        simp at hnone

/-- C9 (amended): with `samples_per_channel ≥ 0` and `timeout > 0`,
when the deadline expires before the requested count is met (no overrun
observed), `mcc172_a_in_scan_read` returns Timeout and the partial
samples copied so far are in the caller's buffer (`out` holds exactly
`samples_read` samples), `samples_read_per_channel` is
`samples_read / channel_count`, and with clean overrun flags the status
carries exactly the TRIGGERED/RUNNING bits; with `timeout = 0` it
returns Success immediately (the loop finishes within the first
observation) with whatever was available.  (`samples_per_channel = -1`
does not guarantee Success — see the counterexample.) -/
theorem c9_scan_read_timeout_semantics (bs cc : Nat) (sb : Nat → Int)
    (d0 ri0 : Nat) (hw0 bo0 ftrig frun : Bool) (spc : Int)
    (timeout : ℚ) (bss : Nat) (obs : List ScanReadObs) :
    (∀ r, 0 ≤ spc → 0 < timeout →
      mcc172_a_in_scan_read bs cc sb d0 ri0 hw0 bo0 ftrig frun spc
        timeout bss obs = some r →
      r.timed_out = true → 0 < r.samples_to_read →
      r.ret = RESULT_TIMEOUT ∧ r.out.length = r.samples_read ∧
      r.samples_read_per_channel = r.samples_read / cc ∧
      ((∀ o ∈ obs, o.hw_overrun = false ∧ o.buffer_overrun = false) →
        r.stat = (if ftrig then STATUS_TRIGGERED else 0) +
          (if frun then STATUS_RUNNING else 0))) ∧
    (∀ r, timeout = 0 →
      mcc172_a_in_scan_read bs cc sb d0 ri0 hw0 bo0 ftrig frun spc
        timeout bss obs = some r →
      r.ret = RESULT_SUCCESS ∧ r.out.length = r.samples_read) ∧
    (timeout = 0 → obs ≠ [] →
      mcc172_a_in_scan_read bs cc sb d0 ri0 hw0 bo0 ftrig frun spc
        timeout bss obs ≠ none) := by
  refine ⟨?_, ?_, ?_⟩
  · intro r _hspc htime hrun htd hrem
    unfold mcc172_a_in_scan_read at hrun
    dsimp only at hrun
    have hnt : decide (timeout < 0) = false :=
      decide_eq_false (not_lt.mpr (le_of_lt htime))
    exact (scan_read_core_spec bs cc sb d0 ri0 hw0 bo0 ftrig frun _ _
      timeout _ obs).1 r htime hnt hrun htd hrem
  · intro r ht0 hrun
    subst ht0
    unfold mcc172_a_in_scan_read at hrun
    dsimp only at hrun
    exact (scan_read_core_spec bs cc sb d0 ri0 hw0 bo0 ftrig frun _ _
      0 _ obs).2.1 r (by norm_num) hrun
  · intro ht0 hne hnone
    subst ht0
    unfold mcc172_a_in_scan_read at hnone
    dsimp only at hnone
    exact (scan_read_core_spec bs cc sb d0 ri0 hw0 bo0 ftrig frun _ _
      0 _ obs).2.2 (by decide) (by decide) hne hnone

/-- Witness: a concrete timed-out read (8-sample ring, 2 channels, 4
samples requested, 1 s timeout, only 2 samples ever produced) returns
Timeout with the 2 partial samples delivered. -/
theorem c9_scan_read_timeout_semantics_witness :
    ∃ r : ScanReadResult,
      mcc172_a_in_scan_read 8 2 (fun k => (k : Int)) 3 0 false false
          false false 3 1 100 [⟨0, 2000000, false, false, true⟩] =
        some r ∧
      r.ret = RESULT_TIMEOUT ∧ r.out.length = r.samples_read ∧
      r.samples_read_per_channel = r.samples_read / 2 ∧ r.stat = 0 := by
  refine ⟨{ ret := RESULT_TIMEOUT, stat := 0, samples_read := 2,
            samples_read_per_channel := 1, out := [0, 1],
            samples_to_read := 4, timed_out := true, read_index := 2,
            buffer_depth := 1 }, by decide, ?_⟩
  have h := (c9_scan_read_timeout_semantics 8 2 (fun k => (k : Int)) 3 0
      false false false false 3 1 100
      [⟨0, 2000000, false, false, true⟩]).1
      { ret := RESULT_TIMEOUT, stat := 0, samples_read := 2,
        samples_read_per_channel := 1, out := [0, 1],
        samples_to_read := 4, timed_out := true, read_index := 2,
        buffer_depth := 1 }
      (by decide) (by decide) (by decide) (by decide) (by decide)
  exact ⟨h.1, h.2.1, h.2.2.1, by simpa using h.2.2.2 (by decide)⟩
